import Mathlib

/-!
Lean model of `src/pybind/mgr/ansible/ansible_runner_svc.py`, the client
module for the Ansible Runner Service, together with proofs about its
behaviour.

The Python module is a thin HTTP client.  The embedding makes the implicit
effects explicit:

* The `requests` library is modelled by an oracle `Net` mapping each URL (and
  request data) to either a raised `requests` exception or an HTTP `Response`.
* Python exceptions are modelled by `Except PyExn`; the exception classes the
  module can raise or propagate are the constructors of `PyExn`.
* Response bodies are modelled as already-parsed JSON values (`JVal`); the
  places where `json.loads(...)[key]` would raise `KeyError`/`TypeError` on a
  missing field or an ill-typed value return the corresponding `PyExn` error.
* Each operation also returns the list of HTTP requests it issued, so that
  "queries the endpoint exactly once" and "does not contact the remote
  service" are statable.
* Logging has no semantic effect and is dropped; the rest client of a
  `PlayBookExecution` is passed explicitly to each method.
-/

set_option autoImplicit false

/-- A response text, described through `json.loads`: a parsed JSON value —
object, string, or `jnull` standing for the remaining JSON leaves — or
`jraw`, a text that is not valid JSON, on which `json.loads` raises
`JSONDecodeError`.  `jraw` describes a whole response text; it does not
occur nested inside honestly parsed values. -/
inductive JVal where
  | jstr (s : String)
  | jobj (fields : List (String × JVal))
  | jnull
  | jraw (s : String)

/-- Lookup of a key in the field list of a JSON object (Python `dict`
subscript on a parsed JSON object). -/
def lookupField : List (String × JVal) → String → Option JVal
  | [], _ => none
  | (k, v) :: rest, key => if k = key then some v else lookupField rest key

/-- Python subscript `value[key]` on a parsed JSON value, as a partial
lookup: `none` when the key is absent or the value is not an object. -/
def jlookup : JVal → String → Option JVal
  | .jobj fields, key => lookupField fields key
  | _, _ => none

/-- The exception classes that code in this module can raise or let
propagate.  `ansibleRunnerServiceError` is the module's own
`AnsibleRunnerServiceError`; `notImplementedError` is raised by `http_put`;
`keyError` and `typeError` model Python's `KeyError`/`TypeError` raised by
subscripting a parsed JSON body that lacks the expected field or shape;
`jsonDecodeError` is `json.JSONDecodeError` from `json.loads` on a text
that is not valid JSON; `attributeError` is `AttributeError` from calling
`.items()` on a non-mapping; `reError` is `re.error` from `re.match` with
an invalid pattern — it can only arise for patterns outside the regex
fragment this model covers, so no definition here produces it, and it
exists so that statements enumerating the exceptions the program can raise
remain true of the program. -/
inductive PyExn where
  | ansibleRunnerServiceError (msg : String)
  | notImplementedError (msg : String)
  | keyError
  | typeError
  | jsonDecodeError
  | attributeError
  | reError
  deriving DecidableEq

/-- Whether an exception is the module's own transport error
(`AnsibleRunnerServiceError`). -/
def PyExn.isTransport : PyExn → Bool
  | .ansibleRunnerServiceError _ => true
  | _ => false

/-- Whether an exception is one of the Python-level errors the
body-handling and filtering code can raise: `KeyError`/`TypeError` from
subscripting, `JSONDecodeError` from `json.loads`, `AttributeError` from
`.items()` on a non-mapping, or `re.error` from an invalid regex pattern. -/
def PyExn.isBodyError : PyExn → Bool
  | .keyError => true
  | .typeError => true
  | .jsonDecodeError => true
  | .attributeError => true
  | .reError => true
  | _ => false

/-- `json.loads(response.text)`: the already-parsed value for valid JSON,
`JSONDecodeError` for a text that is not valid JSON. -/
def json_loads : JVal → Except PyExn JVal
  | .jraw _ => .error .jsonDecodeError
  | .jstr s => .ok (.jstr s)
  | .jobj l => .ok (.jobj l)
  | .jnull => .ok .jnull

/-- `ExecutionStatusCode` from the source: the status of a playbook
execution. -/
inductive ExecutionStatusCode where
  | SUCCESS
  | ERROR
  | ON_GOING
  | NOT_LAUNCHED
  deriving DecidableEq

/-- An HTTP response as seen through the `requests` library: status code,
reason phrase and (parsed) body text. -/
structure Response where
  status_code : Nat
  reason : String
  text : JVal

/-- `requests.Response.ok`, which is also the truthiness of a response in
Python (`bool(response)`): true exactly when the status code is below 400. -/
def Response.ok (r : Response) : Bool := r.status_code < 400

/-- Outcome of one raw call into the `requests` library: either a raised
`requests.exceptions.RequestException`/`IOError` (carrying its message) or an
HTTP response. -/
inductive ReqOutcome where
  | exn (msg : String)
  | resp (r : Response)

/-- Opaque payload dictionary for POST/PUT bodies. -/
abbrev Payload := List (String × String)

/-- Opaque query-string dictionary. -/
abbrev QueryStr := List (String × String)

/-- The network oracle: what the `requests` library does for each GET, POST
and DELETE this module may issue. -/
structure Net where
  get : String → ReqOutcome
  post : String → Option Payload → Option QueryStr → ReqOutcome
  delete : String → ReqOutcome

/-- One HTTP request issued by the module, recorded in the trace of an
operation. -/
inductive Request where
  | get (url : String)
  | post (url : String) (payload : Option Payload) (params : Option QueryStr)
  | delete (url : String)
  deriving DecidableEq

/-- `API_URL` from the source. -/
def API_URL : String := "api"

/-- `PLAYBOOK_EXEC_URL` from the source. -/
def PLAYBOOK_EXEC_URL : String := "api/v1/playbooks"

/-- `PLAYBOOK_EVENTS % play_uuid` from the source. -/
def PLAYBOOK_EVENTS (play_uuid : String) : String :=
  "api/v1/jobs/" ++ play_uuid ++ "/events"

/-- `EVENT_DATA_URL % (play_uuid, event)` from the source (declared but
unused by the current logic). -/
def EVENT_DATA_URL (play_uuid event : String) : String :=
  "api/v1/jobs/" ++ play_uuid ++ "/events/" ++ event

/-- The `verify` argument handed to `requests`: in the source a boolean that
is overwritten by the CA-bundle path when one is given. -/
inductive VerifySetting where
  | flag (b : Bool)
  | caBundle (path : String)
  deriving DecidableEq

/-- The `Client` object: base URL (already prefixed with `https://`),
verification mode and client certificate/key paths.  The logger is dropped. -/
structure Client where
  server_url : String
  verify_server : VerifySetting
  client_cert : String × String

/-- `Client.__init__` from the source: prefixes the server URL with
`https://` and lets a non-empty CA bundle intentionally overwrite the
`verify_server` boolean. -/
def Client.init (server_url : String) (verify_server : Bool) (ca_bundle : String)
    (client_cert : String) (client_key : String) : Client :=
  { server_url := "https://" ++ server_url
    verify_server := if ca_bundle = "" then .flag verify_server else .caBundle ca_bundle
    client_cert := (client_cert, client_key) }

/-- `Client.http_get` from the source: one `requests.get` against
`server_url/endpoint`; the `handle_requests_exceptions` decorator turns a
`requests` exception into `AnsibleRunnerServiceError` with the original
message; any response object, whatever its status, is returned as is (the
status is only logged). -/
def Client.http_get (c : Client) (net : Net) (endpoint : String) :
    Except PyExn Response × List Request :=
  let the_url := c.server_url ++ "/" ++ endpoint
  match net.get the_url with
  | .exn m => (.error (.ansibleRunnerServiceError m), [.get the_url])
  | .resp r => (.ok r, [.get the_url])

/-- `Client.http_post` from the source, analogous to `http_get`. -/
def Client.http_post (c : Client) (net : Net) (endpoint : String)
    (payload : Option Payload) (params_dict : Option QueryStr) :
    Except PyExn Response × List Request :=
  let the_url := c.server_url ++ "/" ++ endpoint
  match net.post the_url payload params_dict with
  | .exn m => (.error (.ansibleRunnerServiceError m), [.post the_url payload params_dict])
  | .resp r => (.ok r, [.post the_url payload params_dict])

/-- `Client.http_delete` from the source, analogous to `http_get`. -/
def Client.http_delete (c : Client) (net : Net) (endpoint : String) :
    Except PyExn Response × List Request :=
  let the_url := c.server_url ++ "/" ++ endpoint
  match net.delete the_url with
  | .exn m => (.error (.ansibleRunnerServiceError m), [.delete the_url])
  | .resp r => (.ok r, [.delete the_url])

/-- `Client.http_put` from the source: unconditionally raises
`NotImplementedError("TODO")`; no request is issued. -/
def Client.http_put (_c : Client) (_endpoint : String) (_payload : Option Payload) :
    Except PyExn Response :=
  .error (.notImplementedError "TODO")

/-- `Client.is_operative` from the source: GET against the service root;
`if response:` tests the response's truthiness (`Response.ok`), and in the
truthy branch the result is `status_code == requests.codes.ok` (200).  The
`AnsibleRunnerServiceError` raised by `http_get` on a connection failure is
not a `requests` exception, so the decorator lets it propagate. -/
def Client.is_operative (c : Client) (net : Net) : Except PyExn Bool × List Request :=
  match c.http_get net API_URL with
  | (.error e, tr) => (.error e, tr)
  | (.ok r, tr) => (if r.ok then .ok (r.status_code == 200) else .ok false, tr)

/-- The `PlayBookExecution` object.  The rest client and the logger are not
stored; the client is passed explicitly to each method. -/
structure PlayBookExecution where
  play_uuid : String
  result_task_pattern : String
  playbook : String
  params : Option Payload
  querystr_dict : Option QueryStr

/-- `PlayBookExecution.__init__` from the source: the identifier starts as
the `"-"` sentinel. -/
def PlayBookExecution.init (playbook : String) (result_pattern : String)
    (the_params : Option Payload) (querystr_dict : Option QueryStr) :
    PlayBookExecution :=
  { play_uuid := "-"
    result_task_pattern := result_pattern
    playbook := playbook
    params := the_params
    querystr_dict := querystr_dict }

/-- Extraction `json.loads(response.text)["data"]["play_uuid"]` performed by
`launch` on a truthy response.  `json.loads` raises `JSONDecodeError` on a
non-JSON text; a missing key raises `KeyError`, subscripting a non-dict
raises `TypeError`.  (Python would store a non-string `play_uuid` value as
is; the model restricts the identifier to the string case — the service
contract — and flags any other value as a shape error.) -/
def parse_play_uuid (body : JVal) : Except PyExn String :=
  match json_loads body with
  | .error e => .error e
  | .ok v =>
    match v with
    | .jobj _ =>
      match jlookup v "data" with
      | some d =>
        match d with
        | .jobj _ =>
          match jlookup d "play_uuid" with
          | some (.jstr u) => .ok u
          | some _ => .error .typeError
          | none => .error .keyError
        | _ => .error .typeError
      | none => .error .keyError
    | _ => .error .typeError

/-- Result of `PlayBookExecution.launch`: final state of the handle (the
Python object persists after an exception), the normal or exceptional
outcome, and the requests issued. -/
structure LaunchResult where
  state : PlayBookExecution
  result : Except PyExn Unit
  trace : List Request

/-- `PlayBookExecution.launch` from the source: POST to the playbook
endpoint; a transport error is logged and re-raised; on a truthy (`ok`)
response the identifier is set from `data.play_uuid`; on a non-ok response
`AnsibleRunnerServiceError(response.reason)` is raised and the identifier is
not touched. -/
def PlayBookExecution.launch (pb : PlayBookExecution) (c : Client) (net : Net) :
    LaunchResult :=
  let endpoint := PLAYBOOK_EXEC_URL ++ "/" ++ pb.playbook
  match c.http_post net endpoint pb.params pb.querystr_dict with
  | (.error e, tr) => ⟨pb, .error e, tr⟩
  | (.ok r, tr) =>
    if r.ok then
      match parse_play_uuid r.text with
      | .ok u => ⟨{ pb with play_uuid := u }, .ok (), tr⟩
      | .error e => ⟨pb, .error e, tr⟩
    else ⟨pb, .error (.ansibleRunnerServiceError r.reason), tr⟩

/-- Parsing `json.loads(response.text)["msg"]` in `get_status` and the
three-way comparison on it.  `json.loads` raises `JSONDecodeError` on a
non-JSON text; a non-string `msg` value compares unequal to both
`"successful"` and `"failed"`, hence `ON_GOING`; a missing `msg` key raises
`KeyError`; a non-dict body raises `TypeError`. -/
def parse_status_body (body : JVal) : Except PyExn ExecutionStatusCode :=
  match json_loads body with
  | .error e => .error e
  | .ok v =>
    match v with
    | .jobj _ =>
      match jlookup v "msg" with
      | some (.jstr s) =>
        .ok (if s = "successful" then .SUCCESS
             else if s = "failed" then .ERROR
             else .ON_GOING)
      | some _ => .ok .ON_GOING
      | none => .error .keyError
    | _ => .error .typeError

/-- `PlayBookExecution.get_status` from the source: three-way branch on the
identifier; for a real identifier one GET against the status endpoint; a
transport error is caught (leaving `response = None`), and `if response:`
tests truthiness, so both a failed GET and a non-ok response fall to the
`ERROR` branch without the body being read. -/
def PlayBookExecution.get_status (pb : PlayBookExecution) (c : Client) (net : Net) :
    Except PyExn ExecutionStatusCode × List Request :=
  if pb.play_uuid = "-" then (.ok .NOT_LAUNCHED, [])
  else if pb.play_uuid = "" then (.ok .ERROR, [])
  else
    match c.http_get net (PLAYBOOK_EXEC_URL ++ "/" ++ pb.play_uuid) with
    | (.error _, tr) => (.ok .ERROR, tr)
    | (.ok r, tr) =>
      if r.ok then (parse_status_body r.text, tr)
      else (.ok .ERROR, tr)

/-- Splitting a regular-expression pattern into its top-level
alternatives. -/
def splitAlt : List Char → List (List Char)
  | [] => [[]]
  | c :: rest =>
    let r := splitAlt rest
    if c = '|' then [] :: r
    else
      match r with
      | [] => [[c]]
      | h :: t => (c :: h) :: t

/-- The characters Python's `re` treats specially outside character
classes.  A pattern containing none of them is a literal string. -/
def regexMetachars : List Char :=
  ['.', '^', '$', '*', '+', '?', '{', '}', '[', ']', '\\', '|', '(', ')']

/-- Whether a string is free of regex metacharacters, so that `re.match`
with it as the pattern is exactly a match of the literal string at the
start of the subject.  Every claim theorem that reaches the regex model
confines the patterns or names to this fragment through this predicate. -/
def literalPattern (s : String) : Bool :=
  s.toList.all (fun c => !(regexMetachars.contains c))

/-- Model of `re.match(pattern, s) is not None`, valid on the fragment the
claim theorems admit: patterns that are `"|"`-joined alternations of
literal (metacharacter-free) strings.  On that fragment `re.match`, which
anchors at the start of the subject only, succeeds exactly when the subject
starts with one of the alternatives, which is what this function computes.
Patterns outside the fragment — regex operators such as `.` or `*`, or
invalid regexes on which `re.match` raises `re.error` — are outside the
model: no theorem admits them. -/
def re_match (pattern s : String) : Bool :=
  (splitAlt pattern.toList).any (fun alt => alt.isPrefixOf s.toList)

/-- Model of Python's `sep.join(l)`. -/
def pyJoin (sep : String) : List String → String
  | [] => ""
  | [a] => a
  | a :: rest => a ++ sep ++ pyJoin sep rest

/-- The task-filter comprehension of `get_result`: keep the entries that
have a `task` field matching the pattern.  Items are inspected in order;
`"task" in data` short-circuits, so an absent `task` field just drops the
entry, and `re.match` on a non-string `task` value raises `TypeError`.
A detail that is not a dict is flagged as a shape error here; Python's
`in` test on such a value silently drops some (lists, strings without the
substring) and raises `TypeError` on others — the claim theorems restrict
to dict details, where the model is exact. -/
def task_filter (pat : String) : List (String × JVal) → Except PyExn (List (String × JVal))
  | [] => .ok []
  | (e, d) :: rest =>
    match d with
    | .jobj _ =>
      match jlookup d "task" with
      | some (.jstr t) =>
        match task_filter pat rest with
        | .ok tail => .ok (if re_match pat t then (e, d) :: tail else tail)
        | .error err => .error err
      | some _ => .error .typeError
      | none =>
        match task_filter pat rest with
        | .ok tail => .ok tail
        | .error err => .error err
    | _ => .error .typeError

/-- The `if self.result_task_pattern:` stage of `get_result`, at the level
of the raw `data.events` value: an empty pattern is falsy and the value
passes through unchanged, whatever it is; a configured pattern iterates
`events.items()`, which raises `AttributeError` when the value is not a
mapping. -/
def apply_task_filter (pat : String) (ev : JVal) : Except PyExn JVal :=
  if pat = "" then .ok ev
  else
    match ev with
    | .jobj evs =>
      match task_filter pat evs with
      | .ok l => .ok (.jobj l)
      | .error e => .error e
    | _ => .error .attributeError

/-- The event-filter comprehension of `get_result`: keep the entries whose
`event` field matches the joined pattern.  `data['event']` raises `KeyError`
when the field is absent and `TypeError` when `data` is not a dict or the
field value is not a string. -/
def event_filter_dict (pats : String) :
    List (String × JVal) → Except PyExn (List (String × JVal))
  | [] => .ok []
  | (e, d) :: rest =>
    match d with
    | .jobj _ =>
      match jlookup d "event" with
      | some (.jstr s) =>
        match event_filter_dict pats rest with
        | .ok tail => .ok (if re_match pats s then (e, d) :: tail else tail)
        | .error err => .error err
      | some _ => .error .typeError
      | none => .error .keyError
    | _ => .error .typeError

/-- Extraction `json.loads(response.text)["data"]["events"]` performed by
`get_result`.  `json.loads` raises `JSONDecodeError` on a non-JSON text; a
missing key raises `KeyError`, subscripting a non-dict raises `TypeError`.
The events value itself is returned raw, whatever its shape: the program
only requires it to be a mapping when a filter stage iterates it. -/
def parse_events (body : JVal) : Except PyExn JVal :=
  match json_loads body with
  | .error e => .error e
  | .ok v =>
    match v with
    | .jobj _ =>
      match jlookup v "data" with
      | some d =>
        match d with
        | .jobj _ =>
          match jlookup d "events" with
          | some ev => .ok ev
          | none => .error .keyError
        | _ => .error .typeError
      | none => .error .keyError
    | _ => .error .typeError

/-- The `if event_filter:` stage of `get_result`: an empty list is falsy
and the value passes through unchanged; a non-empty list is joined with
`"|"` as in the source and the comprehension iterates
`result_events.items()`, which raises `AttributeError` when the value is
not a mapping. -/
def apply_event_filter (event_filter : List String) (ev : JVal) : Except PyExn JVal :=
  if event_filter.isEmpty then .ok ev
  else
    match ev with
    | .jobj l =>
      match event_filter_dict (pyJoin "|" event_filter) l with
      | .ok l2 => .ok (.jobj l2)
      | .error e => .error e
    | _ => .error .attributeError

/-- The body-processing part of `get_result` on a truthy response: extract
the raw `data.events` value, apply the task-filter stage, then the
event-filter stage. -/
def process_events_body (pat : String) (event_filter : List String) (body : JVal) :
    Except PyExn JVal :=
  match parse_events body with
  | .error e => .error e
  | .ok ev =>
    match apply_task_filter pat ev with
    | .error e => .error e
    | .ok r1 => apply_event_filter event_filter r1

/-- `PlayBookExecution.get_result` from the source: `if not self.play_uuid:`
is true only for the empty string (the `"-"` sentinel is truthy), in which
case `{}` is returned with no request made; otherwise one GET against the
events endpoint; a transport error is caught (`response = None`) and
`if not response:` also catches a non-ok response, yielding `{}`; a truthy
response's body is parsed and filtered. -/
def PlayBookExecution.get_result (pb : PlayBookExecution) (c : Client) (net : Net)
    (event_filter : List String) :
    Except PyExn JVal × List Request :=
  if pb.play_uuid = "" then (.ok (.jobj []), [])
  else
    match c.http_get net (PLAYBOOK_EVENTS pb.play_uuid) with
    | (.error _, tr) => (.ok (.jobj []), tr)
    | (.ok r, tr) =>
      if r.ok then (process_events_body pb.result_task_pattern event_filter r.text, tr)
      else (.ok (.jobj []), tr)

/-- Shape check used in filter lemmas: the detail is an object and its
`task` field, when present, is a string (so the task-filter comprehension
cannot raise on it). -/
def detailTaskOk (d : JVal) : Bool :=
  match d with
  | .jobj _ =>
    match jlookup d "task" with
    | some (.jstr _) => true
    | some _ => false
    | none => true
  | _ => false

/-- Shape check used in filter lemmas: the detail is an object with a string
`event` field (so the event-filter comprehension cannot raise on it). -/
def detailEventOk (d : JVal) : Bool :=
  match d with
  | .jobj _ =>
    match jlookup d "event" with
    | some (.jstr _) => true
    | _ => false
  | _ => false

/-! Concrete fixtures used by witnesses and counterexamples. -/

/-- A concrete client against host `h` (server URL `https://h`). -/
def cHost : Client := Client.init "h" true "" "cert.pem" "key.pem"

/-- A fresh execution handle: the identifier is still the `"-"` sentinel. -/
def pbFresh : PlayBookExecution := PlayBookExecution.init "book" "" none none

/-- A handle whose launch stored the real identifier `u1`. -/
def pbLaunched : PlayBookExecution := { pbFresh with play_uuid := "u1" }

/-- A handle in the empty-string "launch failed" state. -/
def pbFailed : PlayBookExecution := { pbFresh with play_uuid := "" }

/-- A network where every request raises a connection-level error. -/
def netDown : Net :=
  { get := fun _ => .exn "connection refused"
    post := fun _ _ _ => .exn "connection refused"
    delete := fun _ => .exn "connection refused" }

/-- A network answering every request with the same response. -/
def netConst (r : Response) : Net :=
  { get := fun _ => .resp r
    post := fun _ _ _ => .resp r
    delete := fun _ => .resp r }

/-- Events body `{"data": {"events": evs}}`. -/
def eventsBody (evs : List (String × JVal)) : JVal :=
  .jobj [("status", .jstr "OK"), ("data", .jobj [("events", .jobj evs)])]

/-- An event detail with a `task` and an `event` field. -/
def mkDetail (task event : String) : JVal :=
  .jobj [("task", .jstr task), ("event", .jstr event), ("counter", .jnull)]

/-- An event detail with an `event` field but no `task` field. -/
def mkDetailNoTask (event : String) : JVal :=
  .jobj [("event", .jstr event)]

/-- A 500 response whose body nevertheless reads `"msg": "successful"`. -/
def resp500successful : Response :=
  { status_code := 500, reason := "Internal Server Error"
    text := .jobj [("msg", .jstr "successful")] }

/-- A 204 response (not the success code 200, but truthy) whose body reads
`"msg": "successful"`. -/
def resp204successful : Response :=
  { status_code := 204, reason := "No Content"
    text := .jobj [("msg", .jstr "successful")] }

/-- A 200 response whose body is `{"msg": m}`. -/
def respMsg (m : String) : Response :=
  { status_code := 200, reason := "OK", text := .jobj [("msg", .jstr m)] }

/-- A truthy response whose body is not valid JSON. -/
def respRaw : Response :=
  { status_code := 200, reason := "OK", text := .jraw "<html>busy</html>" }

/-- A truthy response whose `data.events` value is a string rather than a
mapping. -/
def respEventsNotDict : Response :=
  { status_code := 200, reason := "OK"
    text := .jobj [("data", .jobj [("events", .jstr "oops")])] }

/-- The URL `launch` POSTs to, as built by the code
(`server_url/api/v1/playbooks/{playbook}`). -/
def launch_url (c : Client) (pb : PlayBookExecution) : String :=
  c.server_url ++ "/" ++ (PLAYBOOK_EXEC_URL ++ "/" ++ pb.playbook)

/-- The URL `get_status` GETs, as built by the code
(`server_url/api/v1/playbooks/{play_uuid}`). -/
def status_url (c : Client) (pb : PlayBookExecution) : String :=
  c.server_url ++ "/" ++ (PLAYBOOK_EXEC_URL ++ "/" ++ pb.play_uuid)

/-- The URL `get_result` GETs, as built by the code
(`server_url/api/v1/jobs/{play_uuid}/events`). -/
def events_url (c : Client) (pb : PlayBookExecution) : String :=
  c.server_url ++ "/" ++ PLAYBOOK_EVENTS pb.play_uuid

/-- The URL `is_operative` GETs, as built by the code (`server_url/api`). -/
def root_url (c : Client) : String :=
  c.server_url ++ "/" ++ API_URL

/-! Helper lemmas shared by the claim theorems. -/

/-- The only exception `json_loads` raises is `JSONDecodeError`. -/
theorem json_loads_error {body : JVal} {e : PyExn}
    (h : json_loads body = .error e) : e.isBodyError = true := by
  cases body with
  | jraw s => cases h; rfl
  | jstr s => simp [json_loads] at h
  | jobj l => simp [json_loads] at h
  | jnull => simp [json_loads] at h

/-- Any exception produced by `parse_play_uuid` is a body-level error. -/
theorem parse_play_uuid_error {body : JVal} {e : PyExn}
    (h : parse_play_uuid body = .error e) : e.isBodyError = true := by
  unfold parse_play_uuid at h
  repeat' split at h
  all_goals first
    | (cases h; rfl)
    | (cases h; exact json_loads_error (by assumption))
    | simp at h

/-- Any exception produced by `parse_status_body` is a body-level error. -/
theorem parse_status_body_error {body : JVal} {e : PyExn}
    (h : parse_status_body body = .error e) : e.isBodyError = true := by
  unfold parse_status_body at h
  repeat' split at h
  all_goals first
    | (cases h; rfl)
    | (cases h; exact json_loads_error (by assumption))
    | simp at h

/-- Any exception produced by `parse_events` is a body-level error. -/
theorem parse_events_error {body : JVal} {e : PyExn}
    (h : parse_events body = .error e) : e.isBodyError = true := by
  unfold parse_events at h
  repeat' split at h
  all_goals first
    | (cases h; rfl)
    | (cases h; exact json_loads_error (by assumption))
    | simp at h

/-- Any exception produced by the task-filter comprehension is a body-level
error. -/
theorem task_filter_error {pat : String} {l : List (String × JVal)} {e : PyExn}
    (h : task_filter pat l = .error e) : e.isBodyError = true := by
  induction l with
  | nil => simp [task_filter] at h
  | cons hd tl ih =>
    obtain ⟨en, d⟩ := hd
    unfold task_filter at h
    repeat' split at h
    all_goals first
      | (cases h; rfl)
      | (cases h; exact ih (by assumption))
      | simp at h

/-- Any exception produced by the task-filter stage is a body-level
error. -/
theorem apply_task_filter_error {pat : String} {ev : JVal} {e : PyExn}
    (h : apply_task_filter pat ev = .error e) : e.isBodyError = true := by
  unfold apply_task_filter at h
  repeat' split at h
  all_goals first
    | (cases h; rfl)
    | (cases h; exact task_filter_error (by assumption))
    | simp at h

/-- Any exception produced by the event-filter comprehension is a
body-level error. -/
theorem event_filter_dict_error {pats : String} {l : List (String × JVal)} {e : PyExn}
    (h : event_filter_dict pats l = .error e) : e.isBodyError = true := by
  induction l with
  | nil => simp [event_filter_dict] at h
  | cons hd tl ih =>
    obtain ⟨en, d⟩ := hd
    unfold event_filter_dict at h
    repeat' split at h
    all_goals first
      | (cases h; rfl)
      | (cases h; exact ih (by assumption))
      | simp at h

/-- Any exception produced by the event-filter stage is a body-level
error. -/
theorem apply_event_filter_error {ef : List String} {ev : JVal} {e : PyExn}
    (h : apply_event_filter ef ev = .error e) : e.isBodyError = true := by
  unfold apply_event_filter at h
  repeat' split at h
  all_goals first
    | (cases h; rfl)
    | (cases h; exact event_filter_dict_error (by assumption))
    | simp at h

/-- Any exception produced by `process_events_body` is a body-level
error. -/
theorem process_events_body_error {pat : String} {ef : List String} {body : JVal}
    {e : PyExn} (h : process_events_body pat ef body = .error e) :
    e.isBodyError = true := by
  unfold process_events_body at h
  split at h
  · rename_i e1 heq
    cases h
    exact parse_events_error heq
  · rename_i ev heq
    split at h
    · rename_i e1 heq2
      cases h
      exact apply_task_filter_error heq2
    · rename_i r1 heq2
      exact apply_event_filter_error h

/-- `parse_status_body` never yields the `NOT_LAUNCHED` status. -/
theorem parse_status_body_ne_not_launched (body : JVal) :
    parse_status_body body ≠ .ok .NOT_LAUNCHED := by
  unfold parse_status_body
  repeat' split
  all_goals simp

/-- When the alternatives of a pattern are exactly the strings of `fs`,
`re_match` is the check that the subject starts with one of them. -/
theorem re_match_alternation (pats : String) (fs : List String) (s : String)
    (h : splitAlt pats.toList = fs.map String.toList) :
    re_match pats s = fs.any (fun f => f.toList.isPrefixOf s.toList) := by
  unfold re_match
  rw [h]
  clear h
  induction fs with
  | nil => rfl
  | cons f fs ih => simp only [List.map_cons, List.any_cons, ih]

/-- A metacharacter-free pattern cannot contain the alternation bar. -/
theorem literalPattern_noBar {f : String} (h : literalPattern f = true) :
    '|' ∉ f.toList := by
  intro hm
  unfold literalPattern at h
  rw [List.all_eq_true] at h
  have hc := h '|' hm
  simp [regexMetachars] at hc

/-- A bar-free pattern is a single alternative. -/
theorem splitAlt_noBar (l : List Char) (h : '|' ∉ l) : splitAlt l = [l] := by
  induction l with
  | nil => rfl
  | cons c rest ih =>
    simp only [List.mem_cons, not_or] at h
    obtain ⟨hc, hr⟩ := h
    have hc2 : ¬ c = '|' := fun hh => hc hh.symm
    unfold splitAlt
    rw [ih hr]
    simp [hc2]

/-- Splitting at the first bar after a bar-free segment. -/
theorem splitAlt_append_bar (xs ys : List Char) (h : '|' ∉ xs) :
    splitAlt (xs ++ '|' :: ys) = xs :: splitAlt ys := by
  induction xs with
  | nil =>
    simp only [List.nil_append]
    conv_lhs => unfold splitAlt
    simp
  | cons c rest ih =>
    simp only [List.mem_cons, not_or] at h
    obtain ⟨hc, hr⟩ := h
    have hc2 : ¬ c = '|' := fun hh => hc hh.symm
    simp only [List.cons_append]
    conv_lhs => unfold splitAlt
    rw [ih hr]
    simp [hc2]

/-- Joining bar-free names with `"|"` and splitting on the bar again
recovers the names. -/
theorem splitAlt_pyJoin (fs : List String) (hne : fs ≠ [])
    (h : ∀ f ∈ fs, '|' ∉ f.toList) :
    splitAlt (pyJoin "|" fs).toList = fs.map String.toList := by
  induction fs with
  | nil => exact absurd rfl hne
  | cons f rest ih =>
    cases rest with
    | nil =>
      simp only [pyJoin, List.map]
      exact splitAlt_noBar f.toList (h f (by simp))
    | cons g rest2 =>
      have hf : '|' ∉ f.toList := h f (by simp)
      have hrest : ∀ x ∈ g :: rest2, '|' ∉ x.toList := fun x hx => h x (by simp [hx])
      have hej : (f ++ "|" ++ pyJoin "|" (g :: rest2)).toList
          = f.toList ++ '|' :: (pyJoin "|" (g :: rest2)).toList := by
        simp [String.toList]
      calc splitAlt (pyJoin "|" (f :: g :: rest2)).toList
          = splitAlt (f.toList ++ '|' :: (pyJoin "|" (g :: rest2)).toList) := by
            rw [show pyJoin "|" (f :: g :: rest2)
                  = f ++ "|" ++ pyJoin "|" (g :: rest2) from rfl, hej]
        _ = f.toList :: splitAlt (pyJoin "|" (g :: rest2)).toList :=
            splitAlt_append_bar _ _ hf
        _ = f.toList :: (g :: rest2).map String.toList := by
            rw [ih (by simp) hrest]
        _ = (f :: g :: rest2).map String.toList := rfl

/-- On a list of well-shaped details, the task-filter comprehension raises
nothing and keeps exactly the entries whose `task` field matches. -/
theorem task_filter_eq (pat : String) (l : List (String × JVal))
    (h : l.all (fun p => detailTaskOk p.2) = true) :
    task_filter pat l =
      .ok (l.filter fun p =>
        match jlookup p.2 "task" with
        | some (.jstr t) => re_match pat t
        | _ => false) := by
  induction l with
  | nil => rfl
  | cons hd tl ih =>
    obtain ⟨en, d⟩ := hd
    simp only [List.all_cons, Bool.and_eq_true] at h
    obtain ⟨h1, h2⟩ := h
    have ihe := ih h2
    cases d with
    | jstr s => simp [detailTaskOk] at h1
    | jnull => simp [detailTaskOk] at h1
    | jraw s => simp [detailTaskOk] at h1
    | jobj fs =>
      cases hlk : jlookup (JVal.jobj fs) "task" with
      | none => simp [task_filter, hlk, ihe, List.filter_cons]
      | some v =>
        cases v with
        | jstr t => simp [task_filter, hlk, ihe, List.filter_cons]
        | jobj fs2 => simp [detailTaskOk, hlk] at h1
        | jnull => simp [detailTaskOk, hlk] at h1
        | jraw s2 => simp [detailTaskOk, hlk] at h1

/-- On a list of well-shaped details, the event-filter comprehension raises
nothing and keeps exactly the entries whose `event` field matches. -/
theorem event_filter_dict_eq (pats : String) (l : List (String × JVal))
    (h : l.all (fun p => detailEventOk p.2) = true) :
    event_filter_dict pats l =
      .ok (l.filter fun p =>
        match jlookup p.2 "event" with
        | some (.jstr s) => re_match pats s
        | _ => false) := by
  induction l with
  | nil => rfl
  | cons hd tl ih =>
    obtain ⟨en, d⟩ := hd
    simp only [List.all_cons, Bool.and_eq_true] at h
    obtain ⟨h1, h2⟩ := h
    have ihe := ih h2
    cases d with
    | jstr s => simp [detailEventOk] at h1
    | jnull => simp [detailEventOk] at h1
    | jraw s => simp [detailEventOk] at h1
    | jobj fs =>
      cases hlk : jlookup (JVal.jobj fs) "event" with
      | none => simp [detailEventOk, hlk] at h1
      | some v =>
        cases v with
        | jstr t => simp [event_filter_dict, hlk, ihe, List.filter_cons]
        | jobj fs2 => simp [detailEventOk, hlk] at h1
        | jnull => simp [detailEventOk, hlk] at h1
        | jraw s2 => simp [detailEventOk, hlk] at h1

/-- Unfolding of `get_status` for a real identifier: one GET against the
status endpoint; its failure or a non-ok response yields `ERROR`, a truthy
response is parsed. -/
theorem get_status_real_uuid (pb : PlayBookExecution) (c : Client) (net : Net)
    (h1 : pb.play_uuid ≠ "-") (h2 : pb.play_uuid ≠ "") :
    pb.get_status c net =
      (match net.get (status_url c pb) with
       | .exn _ => .ok .ERROR
       | .resp r => if r.ok then parse_status_body r.text else .ok .ERROR,
       [Request.get (status_url c pb)]) := by
  unfold PlayBookExecution.get_status Client.http_get status_url
  rw [if_neg h1, if_neg h2]
  cases hn : net.get (c.server_url ++ "/" ++ (PLAYBOOK_EXEC_URL ++ "/" ++ pb.play_uuid)) with
  | exn m => simp [hn]
  | resp r => cases hr : r.ok <;> simp [hn, hr]

/-- Unfolding of `get_result` for a non-empty identifier: one GET against
the events endpoint; its failure or a non-ok response yields `{}`, a truthy
response's body is processed. -/
theorem get_result_nonempty_uuid (pb : PlayBookExecution) (c : Client) (net : Net)
    (ef : List String) (h : pb.play_uuid ≠ "") :
    pb.get_result c net ef =
      (match net.get (events_url c pb) with
       | .exn _ => .ok (.jobj [])
       | .resp r =>
         if r.ok then process_events_body pb.result_task_pattern ef r.text
         else .ok (.jobj []),
       [Request.get (events_url c pb)]) := by
  unfold PlayBookExecution.get_result Client.http_get events_url
  rw [if_neg h]
  cases hn : net.get (c.server_url ++ "/" ++ PLAYBOOK_EVENTS pb.play_uuid) with
  | exn m => simp [hn]
  | resp r => cases hr : r.ok <;> simp [hn, hr]

/-- A successful `jlookup` implies the value looked into is an object. -/
theorem jlookup_isSome_jobj {b : JVal} {k : String} {v : JVal}
    (h : jlookup b k = some v) : ∃ fs, b = JVal.jobj fs := by
  cases b with
  | jobj fs => exact ⟨fs, rfl⟩
  | jstr s => simp [jlookup] at h
  | jnull => simp [jlookup] at h
  | jraw s => simp [jlookup] at h

/-! Claim theorems. -/

/-- C7: `is_operative` issues one GET against the service root and returns
true iff the response carries the success status code 200; any response with
another status — non-success HTTP statuses included — yields `false` rather
than an exception, and a Transport Error is raised exactly when the GET
itself fails at connection level. -/
theorem C7_is_operative (c : Client) (net : Net) :
    (∀ m, net.get (root_url c) = .exn m →
      c.is_operative net
        = (.error (.ansibleRunnerServiceError m), [.get (root_url c)]))
    ∧ (∀ r, net.get (root_url c) = .resp r →
      c.is_operative net = (.ok (r.status_code == 200), [.get (root_url c)])) := by
  constructor
  · intro m hm
    unfold root_url at hm
    unfold Client.is_operative Client.http_get
    simp [hm, root_url]
  · intro r hm
    unfold root_url at hm
    unfold Client.is_operative Client.http_get
    cases hok : r.ok with
    | true => simp [hm, hok, root_url]
    | false =>
      have hge : 400 ≤ r.status_code := by
        have := hok
        unfold Response.ok at this
        simpa using this
      have hne : (r.status_code == 200) = false := by
        have : r.status_code ≠ 200 := by omega
        simpa using this
      simp [hm, hok, root_url, hne]

/-- C7 witness: the theorem instantiated with a dead network, a 200 response
and a 404 response. -/
theorem C7_is_operative_witness :
    cHost.is_operative netDown
      = (.error (.ansibleRunnerServiceError "connection refused"), [.get (root_url cHost)])
    ∧ cHost.is_operative (netConst { status_code := 200, reason := "OK", text := .jnull })
      = (.ok true, [.get (root_url cHost)])
    ∧ cHost.is_operative (netConst { status_code := 404, reason := "Not Found", text := .jnull })
      = (.ok false, [.get (root_url cHost)]) := by
  refine ⟨(C7_is_operative cHost netDown).1 "connection refused" rfl, ?_, ?_⟩
  · have h := (C7_is_operative cHost
      (netConst { status_code := 200, reason := "OK", text := .jnull })).2
      { status_code := 200, reason := "OK", text := .jnull } rfl
    simpa using h
  · have h := (C7_is_operative cHost
      (netConst { status_code := 404, reason := "Not Found", text := .jnull })).2
      { status_code := 404, reason := "Not Found", text := .jnull } rfl
    simpa using h

/-- C8: for `http_get`, `http_post` and `http_delete`, an I/O-level
exception from the HTTP stack is wrapped and re-raised as the single
generic Transport Error carrying the original message, while every actual
response — 4xx/5xx statuses included — is returned as is, never raised. -/
theorem C8_transport_wrapping (c : Client) (net : Net) (endpoint : String)
    (payload : Option Payload) (qs : Option QueryStr) :
    (∀ m, net.get (c.server_url ++ "/" ++ endpoint) = .exn m →
      c.http_get net endpoint
        = (.error (.ansibleRunnerServiceError m), [.get (c.server_url ++ "/" ++ endpoint)]))
    ∧ (∀ r, net.get (c.server_url ++ "/" ++ endpoint) = .resp r →
      c.http_get net endpoint = (.ok r, [.get (c.server_url ++ "/" ++ endpoint)]))
    ∧ (∀ m, net.post (c.server_url ++ "/" ++ endpoint) payload qs = .exn m →
      c.http_post net endpoint payload qs
        = (.error (.ansibleRunnerServiceError m),
           [.post (c.server_url ++ "/" ++ endpoint) payload qs]))
    ∧ (∀ r, net.post (c.server_url ++ "/" ++ endpoint) payload qs = .resp r →
      c.http_post net endpoint payload qs
        = (.ok r, [.post (c.server_url ++ "/" ++ endpoint) payload qs]))
    ∧ (∀ m, net.delete (c.server_url ++ "/" ++ endpoint) = .exn m →
      c.http_delete net endpoint
        = (.error (.ansibleRunnerServiceError m), [.delete (c.server_url ++ "/" ++ endpoint)]))
    ∧ (∀ r, net.delete (c.server_url ++ "/" ++ endpoint) = .resp r →
      c.http_delete net endpoint = (.ok r, [.delete (c.server_url ++ "/" ++ endpoint)])) := by
  refine ⟨fun m hm => ?_, fun r hr => ?_, fun m hm => ?_, fun r hr => ?_,
    fun m hm => ?_, fun r hr => ?_⟩
  all_goals first
    | (unfold Client.http_get; simp [hm])
    | (unfold Client.http_get; simp [hr])
    | (unfold Client.http_post; simp [hm])
    | (unfold Client.http_post; simp [hr])
    | (unfold Client.http_delete; simp [hm])
    | (unfold Client.http_delete; simp [hr])

/-- C8 witness: the theorem instantiated on a dead network and on a network
answering 500. -/
theorem C8_transport_wrapping_witness :
    cHost.http_get netDown "api"
      = (.error (.ansibleRunnerServiceError "connection refused"),
         [.get (cHost.server_url ++ "/" ++ "api")])
    ∧ cHost.http_post netDown "api" none none
      = (.error (.ansibleRunnerServiceError "connection refused"),
         [.post (cHost.server_url ++ "/" ++ "api") none none])
    ∧ cHost.http_delete netDown "api"
      = (.error (.ansibleRunnerServiceError "connection refused"),
         [.delete (cHost.server_url ++ "/" ++ "api")])
    ∧ cHost.http_get (netConst resp500successful) "api"
      = (.ok resp500successful, [.get (cHost.server_url ++ "/" ++ "api")]) := by
  exact ⟨(C8_transport_wrapping cHost netDown "api" none none).1 "connection refused" rfl,
    (C8_transport_wrapping cHost netDown "api" none none).2.2.1 "connection refused" rfl,
    (C8_transport_wrapping cHost netDown "api" none none).2.2.2.2.1 "connection refused" rfl,
    (C8_transport_wrapping cHost (netConst resp500successful) "api" none none).2.1
      resp500successful rfl⟩

/-- C4: when `launch` gets an actual HTTP response that is not ok (e.g. a
404), it raises `AnsibleRunnerServiceError` with the response's reason
phrase, issues exactly that one POST, and leaves the handle — in particular
the execution identifier — unchanged (it is not set to the empty-string
failure sentinel). -/
theorem C4_launch_http_error (pb : PlayBookExecution) (c : Client) (net : Net)
    (r : Response)
    (hresp : net.post (launch_url c pb) pb.params pb.querystr_dict = .resp r)
    (hok : r.ok = false) :
    (pb.launch c net).state = pb
    ∧ (pb.launch c net).state.play_uuid = pb.play_uuid
    ∧ (pb.launch c net).result = .error (.ansibleRunnerServiceError r.reason)
    ∧ (pb.launch c net).trace
      = [.post (launch_url c pb) pb.params pb.querystr_dict] := by
  unfold launch_url at hresp
  unfold PlayBookExecution.launch Client.http_post
  simp [hresp, hok, launch_url]

/-- C4 witness: launching against a network that answers 404 leaves the
fresh handle's identifier at the `"-"` sentinel and raises the reason
phrase. -/
theorem C4_launch_http_error_witness :
    (pbFresh.launch cHost (netConst { status_code := 404, reason := "Not Found", text := .jnull })).state.play_uuid
      = "-"
    ∧ (pbFresh.launch cHost (netConst { status_code := 404, reason := "Not Found", text := .jnull })).result
      = .error (.ansibleRunnerServiceError "Not Found") := by
  have h := C4_launch_http_error pbFresh cHost
    (netConst { status_code := 404, reason := "Not Found", text := .jnull })
    { status_code := 404, reason := "Not Found", text := .jnull } rfl (by decide)
  exact ⟨h.2.1.trans rfl, h.2.2.1⟩

/-- C9: on a launched handle with no task pattern, `get_result([])` returns
the `data.events` mapping of the response unmodified, with exactly one GET
against the events endpoint. -/
theorem C9_get_result_unfiltered (pb : PlayBookExecution) (c : Client) (net : Net)
    (r : Response) (evs : List (String × JVal))
    (h1 : pb.play_uuid ≠ "-") (h2 : pb.play_uuid ≠ "")
    (hpat : pb.result_task_pattern = "")
    (hresp : net.get (events_url c pb) = .resp r)
    (hok : r.ok = true)
    (hevs : parse_events r.text = .ok (.jobj evs)) :
    pb.get_result c net [] = (.ok (.jobj evs), [.get (events_url c pb)]) := by
  rw [get_result_nonempty_uuid pb c net [] h2, hresp]
  simp [hok, process_events_body, apply_task_filter, apply_event_filter, hevs, hpat]

/-- C9 witness: a launched handle with two events gets them back verbatim. -/
theorem C9_get_result_unfiltered_witness :
    pbLaunched.get_result cHost
        (netConst { status_code := 200, reason := "OK"
                    text := eventsBody [("e1", mkDetail "t1" "runner_on_ok"),
                                        ("e2", mkDetailNoTask "runner_on_failed")] }) []
      = (.ok (.jobj [("e1", mkDetail "t1" "runner_on_ok"),
                     ("e2", mkDetailNoTask "runner_on_failed")]),
         [.get (events_url cHost pbLaunched)]) := by
  exact C9_get_result_unfiltered pbLaunched cHost
    (netConst { status_code := 200, reason := "OK"
                text := eventsBody [("e1", mkDetail "t1" "runner_on_ok"),
                                    ("e2", mkDetailNoTask "runner_on_failed")] })
    { status_code := 200, reason := "OK"
      text := eventsBody [("e1", mkDetail "t1" "runner_on_ok"),
                          ("e2", mkDetailNoTask "runner_on_failed")] }
    [("e1", mkDetail "t1" "runner_on_ok"), ("e2", mkDetailNoTask "runner_on_failed")]
    (by decide) (by decide) rfl rfl rfl rfl

/-- C6: with a non-empty literal task pattern configured at construction
(`hlit`: the pattern is free of regex metacharacters, the fragment on which
`re.match` is exactly a literal match at the start of the subject),
`get_result` keeps exactly the events whose `task` field is present and
starts with the pattern; events lacking a `task` field or not matching are
dropped.  `hshape` states that every detail is an object whose `task`
field, when present, is a string. -/
theorem C6_task_pattern_filter (pb : PlayBookExecution) (c : Client) (net : Net)
    (r : Response) (evs : List (String × JVal))
    (h2 : pb.play_uuid ≠ "")
    (hpat : pb.result_task_pattern ≠ "")
    (hlit : literalPattern pb.result_task_pattern = true)
    (hresp : net.get (events_url c pb) = .resp r)
    (hok : r.ok = true)
    (hevs : parse_events r.text = .ok (.jobj evs))
    (hshape : evs.all (fun p => detailTaskOk p.2) = true) :
    pb.get_result c net [] =
      (.ok (.jobj (evs.filter fun p =>
        match jlookup p.2 "task" with
        | some (.jstr t) => pb.result_task_pattern.toList.isPrefixOf t.toList
        | _ => false)),
       [.get (events_url c pb)]) := by
  have hsplit : splitAlt pb.result_task_pattern.toList = [pb.result_task_pattern.toList] :=
    splitAlt_noBar _ (literalPattern_noBar hlit)
  have hfil : ∀ p ∈ evs,
      (match jlookup p.2 "task" with
       | some (.jstr t) => re_match pb.result_task_pattern t
       | _ => false)
      = (match jlookup p.2 "task" with
         | some (.jstr t) => pb.result_task_pattern.toList.isPrefixOf t.toList
         | _ => false) := by
    intro p _
    cases hlk : jlookup p.2 "task" with
    | none => rfl
    | some v =>
      cases v with
      | jstr t =>
        have hre := re_match_alternation pb.result_task_pattern [pb.result_task_pattern] t
          (by simpa using hsplit)
        simpa using hre
      | jobj fs => rfl
      | jnull => rfl
      | jraw s2 => rfl
  rw [get_result_nonempty_uuid pb c net [] h2, hresp]
  simp [hok, process_events_body, apply_task_filter, apply_event_filter, hevs, hpat,
    task_filter_eq pb.result_task_pattern evs hshape, List.filter_congr hfil]

/-- C6 witness: a pattern `config` keeps the matching-task event, drops a
non-matching task and an event lacking a `task` field. -/
theorem C6_task_pattern_filter_witness :
    ({ pbLaunched with result_task_pattern := "config" } : PlayBookExecution).get_result
        cHost
        (netConst { status_code := 200, reason := "OK"
                    text := eventsBody [("e1", mkDetail "configure mon" "runner_on_ok"),
                                        ("e2", mkDetail "deploy osd" "runner_on_ok"),
                                        ("e3", mkDetailNoTask "runner_on_failed")] }) []
      = (.ok (.jobj [("e1", mkDetail "configure mon" "runner_on_ok")]),
         [.get (events_url cHost { pbLaunched with result_task_pattern := "config" })]) := by
  have h := C6_task_pattern_filter
    { pbLaunched with result_task_pattern := "config" } cHost
    (netConst { status_code := 200, reason := "OK"
                text := eventsBody [("e1", mkDetail "configure mon" "runner_on_ok"),
                                    ("e2", mkDetail "deploy osd" "runner_on_ok"),
                                    ("e3", mkDetailNoTask "runner_on_failed")] })
    { status_code := 200, reason := "OK"
      text := eventsBody [("e1", mkDetail "configure mon" "runner_on_ok"),
                          ("e2", mkDetail "deploy osd" "runner_on_ok"),
                          ("e3", mkDetailNoTask "runner_on_failed")] }
    [("e1", mkDetail "configure mon" "runner_on_ok"),
     ("e2", mkDetail "deploy osd" "runner_on_ok"),
     ("e3", mkDetailNoTask "runner_on_failed")]
    (by decide) (by decide) (by decide) rfl rfl rfl (by decide)
  rw [h]
  rfl

/-- C5: on a launched handle, `get_result` with a non-empty list of
literal event names (`hlit`: every name is free of regex metacharacters,
the fragment on which the joined alternation matched by `re.match` is
exactly a starts-with test) keeps exactly the entries of the task-filtered
event mapping whose `event` field starts with one of the given names.
`htf` names the task-filtered mapping, `hshape` states that every
remaining detail is an object with a string `event` field. -/
theorem C5_event_name_filter (pb : PlayBookExecution) (c : Client) (net : Net)
    (ef : List String) (r : Response) (ev : JVal) (tf : List (String × JVal))
    (h2 : pb.play_uuid ≠ "")
    (hresp : net.get (events_url c pb) = .resp r)
    (hok : r.ok = true)
    (hevs : parse_events r.text = .ok ev)
    (htf : apply_task_filter pb.result_task_pattern ev = .ok (.jobj tf))
    (hne : ef ≠ [])
    (hlit : ef.all literalPattern = true)
    (hshape : tf.all (fun p => detailEventOk p.2) = true) :
    pb.get_result c net ef =
      (.ok (.jobj (tf.filter fun p =>
        match jlookup p.2 "event" with
        | some (.jstr s) => ef.any fun f => f.toList.isPrefixOf s.toList
        | _ => false)),
       [.get (events_url c pb)]) := by
  have hbar : ∀ f ∈ ef, '|' ∉ f.toList := fun f hf =>
    literalPattern_noBar (List.all_eq_true.mp hlit f hf)
  have hsplit : splitAlt (pyJoin "|" ef).toList = ef.map String.toList :=
    splitAlt_pyJoin ef hne hbar
  have hfil : ∀ p ∈ tf,
      (match jlookup p.2 "event" with
       | some (.jstr s) => re_match (pyJoin "|" ef) s
       | _ => false)
      = (match jlookup p.2 "event" with
         | some (.jstr s) => ef.any fun f => f.toList.isPrefixOf s.toList
         | _ => false) := by
    intro p _
    cases hlk : jlookup p.2 "event" with
    | none => rfl
    | some v =>
      cases v with
      | jstr s => simpa using re_match_alternation (pyJoin "|" ef) ef s hsplit
      | jobj fs => rfl
      | jnull => rfl
      | jraw s2 => rfl
  have hni : ef.isEmpty = false := by cases ef <;> simp_all
  rw [get_result_nonempty_uuid pb c net ef h2, hresp]
  simp [hok, process_events_body, hevs, htf, apply_event_filter, hni,
    event_filter_dict_eq (pyJoin "|" ef) tf hshape, List.filter_congr hfil]

/-- C5 witness: with names `runner_on_ok` and `runner_on_async`, only the
events whose `event` field starts with one of the two names survive. -/
theorem C5_event_name_filter_witness :
    pbLaunched.get_result cHost
        (netConst { status_code := 200, reason := "OK"
                    text := eventsBody [("e1", mkDetail "t1" "runner_on_ok"),
                                        ("e2", mkDetail "t2" "runner_on_failed"),
                                        ("e3", mkDetail "t3" "runner_on_async_ok")] })
        ["runner_on_ok", "runner_on_async"]
      = (.ok (.jobj [("e1", mkDetail "t1" "runner_on_ok"),
                     ("e3", mkDetail "t3" "runner_on_async_ok")]),
         [.get (events_url cHost pbLaunched)]) := by
  have h := C5_event_name_filter pbLaunched cHost
    (netConst { status_code := 200, reason := "OK"
                text := eventsBody [("e1", mkDetail "t1" "runner_on_ok"),
                                    ("e2", mkDetail "t2" "runner_on_failed"),
                                    ("e3", mkDetail "t3" "runner_on_async_ok")] })
    ["runner_on_ok", "runner_on_async"]
    { status_code := 200, reason := "OK"
      text := eventsBody [("e1", mkDetail "t1" "runner_on_ok"),
                          ("e2", mkDetail "t2" "runner_on_failed"),
                          ("e3", mkDetail "t3" "runner_on_async_ok")] }
    (.jobj [("e1", mkDetail "t1" "runner_on_ok"), ("e2", mkDetail "t2" "runner_on_failed"),
            ("e3", mkDetail "t3" "runner_on_async_ok")])
    [("e1", mkDetail "t1" "runner_on_ok"), ("e2", mkDetail "t2" "runner_on_failed"),
     ("e3", mkDetail "t3" "runner_on_async_ok")]
    (by decide) rfl rfl rfl rfl (by decide) (by decide) (by decide)
  rw [h]
  rfl

/-- When the body has a string `msg` field, `parse_status_body` is the
three-way comparison on it. -/
theorem parse_status_body_msg {body : JVal} {s : String}
    (h : jlookup body "msg" = some (.jstr s)) :
    parse_status_body body =
      .ok (if s = "successful" then .SUCCESS
           else if s = "failed" then .ERROR
           else .ON_GOING) := by
  obtain ⟨fs, rfl⟩ := jlookup_isSome_jobj h
  unfold parse_status_body
  simp [json_loads, h]

/-- C1 counterexample: a handle with the real identifier `u1` whose status
GET answers 500 with a body reading `"msg": "successful"`.  The claim's
mapping of the msg text demands `Success`; the code returns `Error` because
the falsy response never has its body parsed. -/
theorem C1_counterexample :
    (pbLaunched.get_status cHost (netConst resp500successful)).1 = .ok .ERROR
    ∧ resp500successful.text = .jobj [("msg", .jstr "successful")]
    ∧ ExecutionStatusCode.ERROR ≠ ExecutionStatusCode.SUCCESS :=
  ⟨rfl, rfl, by decide⟩

/-- C1 (amended): `get_status` returns `NOT_LAUNCHED` iff the identifier is
the `"-"` sentinel; for the empty-string identifier it returns `ERROR`
without querying; for any other identifier it queries the status endpoint
exactly once and maps a truthy response's msg text `"successful"` to
`SUCCESS`, `"failed"` to `ERROR` and any other text to `ON_GOING`, while a
failed GET or a falsy (status ≥ 400) response yields `ERROR` without the
body being read. -/
theorem C1_get_status_amended (pb : PlayBookExecution) (c : Client) (net : Net) :
    (pb.play_uuid = "-" → pb.get_status c net = (.ok .NOT_LAUNCHED, []))
    ∧ ((pb.get_status c net).1 = .ok .NOT_LAUNCHED → pb.play_uuid = "-")
    ∧ (pb.play_uuid = "" → pb.get_status c net = (.ok .ERROR, []))
    ∧ (pb.play_uuid ≠ "-" → pb.play_uuid ≠ "" →
       ((pb.get_status c net).2 = [.get (status_url c pb)]
        ∧ (∀ m, net.get (status_url c pb) = .exn m →
            (pb.get_status c net).1 = .ok .ERROR)
        ∧ (∀ r, net.get (status_url c pb) = .resp r → r.ok = false →
            (pb.get_status c net).1 = .ok .ERROR)
        ∧ (∀ r, net.get (status_url c pb) = .resp r → r.ok = true →
            jlookup r.text "msg" = some (.jstr "successful") →
            (pb.get_status c net).1 = .ok .SUCCESS)
        ∧ (∀ r, net.get (status_url c pb) = .resp r → r.ok = true →
            jlookup r.text "msg" = some (.jstr "failed") →
            (pb.get_status c net).1 = .ok .ERROR)
        ∧ (∀ r s, net.get (status_url c pb) = .resp r → r.ok = true →
            jlookup r.text "msg" = some (.jstr s) →
            s ≠ "successful" → s ≠ "failed" →
            (pb.get_status c net).1 = .ok .ON_GOING))) := by
  refine ⟨?_, ?_, ?_, ?_⟩
  · intro h
    unfold PlayBookExecution.get_status
    rw [if_pos h]
  · intro h
    by_cases h1 : pb.play_uuid = "-"
    · exact h1
    · exfalso
      by_cases h2 : pb.play_uuid = ""
      · unfold PlayBookExecution.get_status at h
        rw [if_neg h1, if_pos h2] at h
        simp at h
      · rw [get_status_real_uuid pb c net h1 h2] at h
        cases hn : net.get (status_url c pb) with
        | exn m => rw [hn] at h; simp at h
        | resp r =>
          rw [hn] at h
          cases hok : r.ok with
          | false => simp [hok] at h
          | true =>
            simp only [hok, if_true] at h
            exact parse_status_body_ne_not_launched r.text h
  · intro h
    unfold PlayBookExecution.get_status
    rw [if_neg (by simp [h]), if_pos h]
  · intro h1 h2
    rw [get_status_real_uuid pb c net h1 h2]
    refine ⟨rfl, ?_, ?_, ?_, ?_, ?_⟩
    · intro m hm
      rw [hm]
    · intro r hm hok
      rw [hm]
      simp [hok]
    · intro r hm hok hmsg
      rw [hm]
      simp [hok, parse_status_body_msg hmsg]
    · intro r hm hok hmsg
      rw [hm]
      simp [hok, parse_status_body_msg hmsg]
    · intro r s hm hok hmsg hns hnf
      rw [hm]
      simp [hok, parse_status_body_msg hmsg, hns, hnf]

/-- C1 witness: the amended theorem instantiated on each branch — fresh
handle, failed-launch handle, dead network, 500 response, and truthy
responses with `successful`, `failed` and `running`. -/
theorem C1_get_status_amended_witness :
    pbFresh.get_status cHost netDown = (.ok .NOT_LAUNCHED, [])
    ∧ pbFailed.get_status cHost netDown = (.ok .ERROR, [])
    ∧ (pbLaunched.get_status cHost netDown).1 = .ok .ERROR
    ∧ (pbLaunched.get_status cHost (netConst { status_code := 502, reason := "Bad Gateway", text := .jnull })).1
      = .ok .ERROR
    ∧ (pbLaunched.get_status cHost (netConst (respMsg "successful"))).1 = .ok .SUCCESS
    ∧ (pbLaunched.get_status cHost (netConst (respMsg "failed"))).1 = .ok .ERROR
    ∧ (pbLaunched.get_status cHost (netConst (respMsg "running"))).1 = .ok .ON_GOING := by
  refine ⟨(C1_get_status_amended pbFresh cHost netDown).1 rfl,
    (C1_get_status_amended pbFailed cHost netDown).2.2.1 rfl, ?_, ?_, ?_, ?_, ?_⟩
  · exact ((C1_get_status_amended pbLaunched cHost netDown).2.2.2 (by decide) (by decide)).2.1
      "connection refused" rfl
  · exact ((C1_get_status_amended pbLaunched cHost
      (netConst { status_code := 502, reason := "Bad Gateway", text := .jnull })).2.2.2
      (by decide) (by decide)).2.2.1
      { status_code := 502, reason := "Bad Gateway", text := .jnull } rfl rfl
  · exact ((C1_get_status_amended pbLaunched cHost
      (netConst (respMsg "successful"))).2.2.2 (by decide) (by decide)).2.2.2.1
      (respMsg "successful") rfl rfl rfl
  · exact ((C1_get_status_amended pbLaunched cHost
      (netConst (respMsg "failed"))).2.2.2 (by decide) (by decide)).2.2.2.2.1
      (respMsg "failed") rfl rfl rfl
  · exact ((C1_get_status_amended pbLaunched cHost
      (netConst (respMsg "running"))).2.2.2 (by decide) (by decide)).2.2.2.2.2
      (respMsg "running") "running" rfl rfl rfl (by decide) (by decide)

/-- C10 counterexample: a 204 response is not the success code 200 — the
claim therefore demands `Error` — yet it is truthy (status < 400), so the
code parses its body and returns `SUCCESS`. -/
theorem C10_counterexample :
    resp204successful.status_code ≠ 200
    ∧ (pbLaunched.get_status cHost (netConst resp204successful)).1 = .ok .SUCCESS
    ∧ ExecutionStatusCode.SUCCESS ≠ ExecutionStatusCode.ERROR :=
  ⟨by decide, rfl, by decide⟩

/-- C10 (amended): for a real identifier, when the status GET returns a
response whose status indicates failure (status ≥ 400, i.e. a falsy
response), `get_status` returns `ERROR` without parsing the body's msg
field — the theorem places no hypothesis at all on the response body. -/
theorem C10_get_status_falsy_response (pb : PlayBookExecution) (c : Client)
    (net : Net) (r : Response)
    (h1 : pb.play_uuid ≠ "-") (h2 : pb.play_uuid ≠ "")
    (hresp : net.get (status_url c pb) = .resp r)
    (hok : r.ok = false) :
    pb.get_status c net = (.ok .ERROR, [.get (status_url c pb)]) := by
  rw [get_status_real_uuid pb c net h1 h2, hresp]
  simp [hok]

/-- C10 witness: a 500 response whose body nevertheless reads
`"msg": "successful"` still yields `ERROR`. -/
theorem C10_get_status_falsy_response_witness :
    pbLaunched.get_status cHost (netConst resp500successful)
      = (.ok .ERROR, [.get (status_url cHost pbLaunched)]) :=
  C10_get_status_falsy_response pbLaunched cHost (netConst resp500successful)
    resp500successful (by decide) (by decide) rfl (by decide)

/-- C2 counterexample: a fresh handle, whose identifier is still the unset
`"-"` sentinel, does contact the remote service in `get_result` — the
sentinel is truthy in Python — with `"-"` interpolated into the events URL,
and an ok response even makes the result non-empty. -/
theorem C2_counterexample :
    (pbFresh.get_result cHost
        (netConst { status_code := 200, reason := "OK"
                    text := eventsBody [("e1", mkDetailNoTask "runner_on_ok")] }) []).2
      = [.get (events_url cHost pbFresh)]
    ∧ events_url cHost pbFresh = "https://h/api/v1/jobs/-/events"
    ∧ (pbFresh.get_result cHost
        (netConst { status_code := 200, reason := "OK"
                    text := eventsBody [("e1", mkDetailNoTask "runner_on_ok")] }) []).1
      = .ok (.jobj [("e1", mkDetailNoTask "runner_on_ok")])
    ∧ (JVal.jobj [("e1", mkDetailNoTask "runner_on_ok")]) ≠ .jobj [] :=
  ⟨rfl, rfl, rfl, by simp⟩

/-- C2 (amended): `get_result` returns the empty mapping without contacting
the remote service exactly when the identifier is the empty string; for any
other identifier — the `"-"` sentinel included — it issues exactly one GET
against the events endpoint. -/
theorem C2_get_result_amended (pb : PlayBookExecution) (c : Client) (net : Net)
    (ef : List String) :
    (pb.play_uuid = "" → pb.get_result c net ef = (.ok (.jobj []), []))
    ∧ (pb.play_uuid ≠ "" →
       (pb.get_result c net ef).2 = [.get (events_url c pb)]) := by
  constructor
  · intro h
    unfold PlayBookExecution.get_result
    rw [if_pos h]
  · intro h
    rw [get_result_nonempty_uuid pb c net ef h]

/-- C2 witness: the failed-launch handle short-circuits; the fresh handle
issues the GET even against a dead network. -/
theorem C2_get_result_amended_witness :
    pbFailed.get_result cHost netDown ["runner_on_ok"] = (.ok (.jobj []), [])
    ∧ (pbFresh.get_result cHost netDown []).2 = [.get (events_url cHost pbFresh)] :=
  ⟨(C2_get_result_amended pbFailed cHost netDown ["runner_on_ok"]).1 rfl,
   (C2_get_result_amended pbFresh cHost netDown []).2 (by decide)⟩

/-- Closed form of `http_get`: result by case on the network outcome, trace
always the single GET. -/
theorem http_get_spec (c : Client) (net : Net) (endpoint : String) :
    c.http_get net endpoint =
      (match net.get (c.server_url ++ "/" ++ endpoint) with
       | .exn m => .error (.ansibleRunnerServiceError m)
       | .resp r => .ok r,
       [.get (c.server_url ++ "/" ++ endpoint)]) := by
  unfold Client.http_get
  cases hn : net.get (c.server_url ++ "/" ++ endpoint) <;> simp [hn]

/-- Closed form of `http_post`, analogous to `http_get_spec`. -/
theorem http_post_spec (c : Client) (net : Net) (endpoint : String)
    (payload : Option Payload) (qs : Option QueryStr) :
    c.http_post net endpoint payload qs =
      (match net.post (c.server_url ++ "/" ++ endpoint) payload qs with
       | .exn m => .error (.ansibleRunnerServiceError m)
       | .resp r => .ok r,
       [.post (c.server_url ++ "/" ++ endpoint) payload qs]) := by
  unfold Client.http_post
  cases hn : net.post (c.server_url ++ "/" ++ endpoint) payload qs <;> simp [hn]

/-- Closed form of `http_delete`, analogous to `http_get_spec`. -/
theorem http_delete_spec (c : Client) (net : Net) (endpoint : String) :
    c.http_delete net endpoint =
      (match net.delete (c.server_url ++ "/" ++ endpoint) with
       | .exn m => .error (.ansibleRunnerServiceError m)
       | .resp r => .ok r,
       [.delete (c.server_url ++ "/" ++ endpoint)]) := by
  unfold Client.http_delete
  cases hn : net.delete (c.server_url ++ "/" ++ endpoint) <;> simp [hn]

/-- C3 counterexample: `http_put` raises `NotImplementedError`, which is not
the Transport Error, so the Transport Error is not the only exception type
that can propagate to callers. -/
theorem C3_counterexample :
    cHost.http_put "test" none = .error (.notImplementedError "TODO")
    ∧ PyExn.isTransport (.notImplementedError "TODO") = false :=
  ⟨rfl, rfl⟩

/-- C3 (amended): `http_get`, `http_post`, `http_delete` and `is_operative`
can only raise the Transport Error; `http_put` always raises
`NotImplementedError`; `launch` can raise the Transport Error or a
body-level Python error (`JSONDecodeError` on a truthy non-JSON body,
`KeyError`/`TypeError` when the body lacks `data.play_uuid`); `get_status`
and `get_result` catch transport failures themselves and can only
propagate body-level errors — `JSONDecodeError`, `KeyError`, `TypeError`,
`AttributeError` from `.items()` on a non-mapping events value and, for
patterns outside the modelled regex fragment, `re.error`.  The `reError`
class is included in the classifier so that this containment is true of
the program; the model's literal-fragment matcher itself never raises
it. -/
theorem C3_exception_types (c : Client) (net : Net) (endpoint : String)
    (payload : Option Payload) (qs : Option QueryStr) (pb : PlayBookExecution)
    (ef : List String) :
    (∀ e, (c.http_get net endpoint).1 = .error e → e.isTransport = true)
    ∧ (∀ e, (c.http_post net endpoint payload qs).1 = .error e → e.isTransport = true)
    ∧ (∀ e, (c.http_delete net endpoint).1 = .error e → e.isTransport = true)
    ∧ (∀ e, (c.is_operative net).1 = .error e → e.isTransport = true)
    ∧ c.http_put endpoint payload = .error (.notImplementedError "TODO")
    ∧ (∀ e, (pb.launch c net).result = .error e →
        (e.isTransport || e.isBodyError) = true)
    ∧ (∀ e, (pb.get_status c net).1 = .error e → e.isBodyError = true)
    ∧ (∀ e, (pb.get_result c net ef).1 = .error e → e.isBodyError = true) := by
  refine ⟨?_, ?_, ?_, ?_, rfl, ?_, ?_, ?_⟩
  · intro e h
    rw [http_get_spec] at h
    cases hn : net.get (c.server_url ++ "/" ++ endpoint) with
    | exn m => simp [hn] at h; subst h; rfl
    | resp r => simp [hn] at h
  · intro e h
    rw [http_post_spec] at h
    cases hn : net.post (c.server_url ++ "/" ++ endpoint) payload qs with
    | exn m => simp [hn] at h; subst h; rfl
    | resp r => simp [hn] at h
  · intro e h
    rw [http_delete_spec] at h
    cases hn : net.delete (c.server_url ++ "/" ++ endpoint) with
    | exn m => simp [hn] at h; subst h; rfl
    | resp r => simp [hn] at h
  · intro e h
    unfold Client.is_operative at h
    rw [http_get_spec] at h
    cases hn : net.get (c.server_url ++ "/" ++ API_URL) with
    | exn m => simp [hn] at h; subst h; rfl
    | resp r =>
      simp only [hn] at h
      cases hok : r.ok <;> simp [hok] at h
  · intro e h
    simp only [PlayBookExecution.launch, http_post_spec] at h
    cases hn : net.post (c.server_url ++ "/" ++ (PLAYBOOK_EXEC_URL ++ "/" ++ pb.playbook))
        pb.params pb.querystr_dict with
    | exn m => simp [hn] at h; subst h; rfl
    | resp r =>
      simp only [hn] at h
      cases hok : r.ok with
      | false =>
        simp [hok] at h
        subst h
        rfl
      | true =>
        cases hp : parse_play_uuid r.text with
        | ok u => simp [hok, hp] at h
        | error e1 =>
          simp [hok, hp] at h
          subst h
          simp [parse_play_uuid_error hp]
  · intro e h
    by_cases h1 : pb.play_uuid = "-"
    · unfold PlayBookExecution.get_status at h
      rw [if_pos h1] at h
      simp at h
    · by_cases h2 : pb.play_uuid = ""
      · unfold PlayBookExecution.get_status at h
        rw [if_neg h1, if_pos h2] at h
        simp at h
      · rw [get_status_real_uuid pb c net h1 h2] at h
        cases hn : net.get (status_url c pb) with
        | exn m => simp [hn] at h
        | resp r =>
          simp only [hn] at h
          cases hok : r.ok with
          | false => simp [hok] at h
          | true =>
            simp [hok] at h
            exact parse_status_body_error h
  · intro e h
    by_cases h2 : pb.play_uuid = ""
    · unfold PlayBookExecution.get_result at h
      rw [if_pos h2] at h
      simp at h
    · rw [get_result_nonempty_uuid pb c net ef h2] at h
      cases hn : net.get (events_url c pb) with
      | exn m => simp [hn] at h
      | resp r =>
        simp only [hn] at h
        cases hok : r.ok with
        | false => simp [hok] at h
        | true =>
          simp [hok] at h
          exact process_events_body_error h

/-- C3 witness: the amended theorem instantiated at concrete failures — a
dead network for the transport operations, `http_put`, a 200 launch
response with an empty JSON body (`KeyError`), a truthy status response
whose body is not valid JSON (`JSONDecodeError`), and a truthy events
response whose `data.events` is a string, filtered with a pattern
(`AttributeError` from `.items()`). -/
theorem C3_exception_types_witness :
    PyExn.isTransport (.ansibleRunnerServiceError "connection refused") = true
    ∧ cHost.http_put "any" none = .error (.notImplementedError "TODO")
    ∧ ((PyExn.keyError).isTransport || (PyExn.keyError).isBodyError) = true
    ∧ PyExn.isBodyError .jsonDecodeError = true
    ∧ PyExn.isBodyError .attributeError = true := by
  refine ⟨?_, ?_, ?_, ?_, ?_⟩
  · exact (C3_exception_types cHost netDown "api" none none pbLaunched []).1
      (.ansibleRunnerServiceError "connection refused") rfl
  · exact (C3_exception_types cHost netDown "any" none none pbLaunched []).2.2.2.2.1
  · exact (C3_exception_types cHost (netConst { status_code := 200, reason := "OK", text := .jobj [] })
      "api" none none pbLaunched []).2.2.2.2.2.1 .keyError rfl
  · exact (C3_exception_types cHost (netConst respRaw)
      "api" none none pbLaunched []).2.2.2.2.2.2.1 .jsonDecodeError rfl
  · exact (C3_exception_types cHost (netConst respEventsNotDict) "api" none none
      { pbLaunched with result_task_pattern := "t" } []).2.2.2.2.2.2.2
      .attributeError rfl
